import Mathlib

/-!
Shallow embedding of the poll(2)-backed `Selector` backend
(`src/sys/unix/selector/poll.rs`) and proofs about its registration table,
wait loop and readiness-bit translation layer.

The OS wait primitive (`poll`) is modelled as an oracle: a `PollOutcome`
supplies either an errno or the observed-readiness masks it wrote into the
entries.  `poll`'s documented contract is that its nonnegative return value
is the number of entries with a nonzero observed mask (`pollReturnCount`).
-/

set_option maxRecDepth 100000

namespace MioPoll

/-! ### libc constants (Linux values) -/

def POLLIN : Nat := 0x001
def POLLPRI : Nat := 0x002
def POLLOUT : Nat := 0x004
def POLLERR : Nat := 0x008
def POLLHUP : Nat := 0x010
def POLLNVAL : Nat := 0x020
def POLLRDNORM : Nat := 0x040
def POLLRDBAND : Nat := 0x080
def POLLWRNORM : Nat := 0x100
def POLLWRBAND : Nat := 0x200

/-! ### Data model -/

/-- `crate::Interest`: the two-bit readable/writable interest set. -/
structure Interest where
  readable : Bool
  writable : Bool
deriving DecidableEq, Repr

/-- `libc::pollfd`: descriptor, requested-interest mask (`events`) and
observed-readiness mask (`revents`).  The masks are `c_short` bit sets,
modelled as `Nat`. -/
structure Pollfd where
  fd : Int
  events : Nat
  revents : Nat
deriving DecidableEq, Repr

instance : Inhabited Pollfd := ⟨⟨0, 0, 0⟩⟩

/-- `crate::Token`: opaque correlation value, a `usize` wrapper. -/
structure Token where
  val : Nat
deriving DecidableEq, Repr

/-- Errors surfaced by this backend (`io::Error` kinds used by the code,
plus the errno of a failed syscall). -/
inductive IOError where
  | alreadyExists
  | notFound
  | osError (errno : Int)
deriving DecidableEq, Repr

/-- The `Selector`: owns the registration table `fds` (a `Vec<pollfd>`).
The debug-only id and wake latch carry no table state and are omitted. -/
structure Selector where
  fds : List Pollfd
deriving DecidableEq, Repr

/-- `Selector::new`: empty table. -/
def Selector.new : Selector := ⟨[]⟩

/-- `Selector::try_clone`: structural copy of the table. -/
def Selector.try_clone (s : Selector) : Selector := ⟨s.fds⟩

/-! ### Readiness translator (`interests_to_poll` and `mod event`) -/

/-- `interests_to_poll`: translate an `Interest` to a poll(2) bit mask. -/
def interests_to_poll (interests : Interest) : Nat :=
  (if interests.writable then POLLOUT ||| POLLWRNORM ||| POLLWRBAND else 0) |||
  (if interests.readable then POLLIN ||| POLLRDNORM ||| POLLRDBAND ||| POLLPRI else 0)

/-- `event::token`: `Token(event.fd as usize)` (64-bit wrapping cast). -/
def token (event : Pollfd) : Token :=
  ⟨(event.fd.emod (2 ^ 64)).toNat⟩

/-- `event::is_readable`. -/
def is_readable (event : Pollfd) : Bool :=
  event.revents &&& (POLLIN ||| POLLRDNORM ||| POLLRDBAND ||| POLLPRI) != 0

/-- `event::is_writable`. -/
def is_writable (event : Pollfd) : Bool :=
  event.revents &&& (POLLOUT ||| POLLWRNORM ||| POLLWRBAND) != 0

/-- `event::is_error`. -/
def is_error (event : Pollfd) : Bool :=
  event.revents &&& (POLLHUP ||| POLLERR) != 0

/-- `event::is_read_closed`. -/
def is_read_closed (event : Pollfd) : Bool :=
  event.revents &&& POLLHUP != 0

/-- `event::is_write_closed`. -/
def is_write_closed (event : Pollfd) : Bool :=
  (event.revents &&& POLLHUP != 0) ||
  (event.revents &&& POLLOUT != 0 && event.revents &&& POLLERR != 0) ||
  (event.revents &&& POLLERR != 0)

/-- `event::is_priority`. -/
def is_priority (event : Pollfd) : Bool :=
  event.revents &&& (POLLRDBAND ||| POLLWRBAND ||| POLLPRI) != 0

/-- `event::is_aio`: always false in this backend. -/
def is_aio (_ : Pollfd) : Bool := false

/-- `event::is_lio`: always false in this backend. -/
def is_lio (_ : Pollfd) : Bool := false

/-! ### Wait engine (`Selector::select`) -/

/-- `std::time::Duration` (normalised: `nanos < 10^9`). -/
structure Duration where
  secs : Nat
  nanos : Nat
deriving DecidableEq, Repr

/-- `Duration::as_millis`: whole milliseconds, truncating. -/
def Duration.as_millis (d : Duration) : Nat :=
  d.secs * 1000 + d.nanos / 1000000

/-- Rust's `as libc::c_int` cast of a `u128`: keep the low 32 bits and
reinterpret them as a signed 32-bit value. -/
def u128_as_c_int (n : Nat) : Int :=
  if n % 2 ^ 32 < 2 ^ 31 then (n % 2 ^ 32 : Nat) else (n % 2 ^ 32 : Nat) - 2 ^ 32

/-- The timeout conversion in `Selector::select`:
`timeout.map(|to| to.as_millis() as libc::c_int).unwrap_or(-1)`. -/
def timeout_to_c_int : Option Duration → Int
  | none => -1
  | some d => u128_as_c_int d.as_millis

/-- Outcome of the `poll` syscall: failure with an errno, or success with
the observed mask it wrote into each table entry. -/
inductive PollOutcome where
  | ok (revents : List Nat)
  | err (errno : Int)
deriving DecidableEq, Repr

/-- The masks `poll` writes back: entry `i` receives `rs[i]` as `revents`. -/
def applyRevents (fds : List Pollfd) (rs : List Nat) : List Pollfd :=
  List.zipWith (fun p r => { p with revents := r }) fds rs

/-- `poll`'s return value on success: per its contract, the number of
entries whose observed mask is nonzero. -/
def pollReturnCount (rs : List Nat) : Nat :=
  (rs.filter (fun r => r != 0)).length

/-- Result of `Selector::select`: the selector state (`self.fds` after
`poll` wrote into it), the output batch (`events`) and the returned value. -/
structure SelectResult where
  selector : Selector
  events : List Pollfd
  result : Except IOError Unit
deriving Repr

/-- `Selector::select(events, timeout)`.  The input batch is cleared first;
on syscall failure the error is propagated with the batch left cleared; on
success the entries passing the readable/writable/error filter are pushed
in table order. -/
def Selector.select (s : Selector) (_events : List Pollfd) (timeout : Option Duration)
    (os : PollOutcome) : SelectResult :=
  let _timeout := timeout_to_c_int timeout
  let events : List Pollfd := []
  match os with
  | .err errno => ⟨s, events, .error (.osError errno)⟩
  | .ok rs =>
      let fds := applyRevents s.fds rs
      let events := (fds.filter fun event =>
          is_readable event || is_writable event || is_error event).foldl
        (fun acc event => acc ++ [event]) events
      ⟨⟨fds⟩, events, .ok ()⟩

/-- The `debug_assert!(events.len() == _n_events as usize)` at the end of
a successful `Selector::select`. -/
def selectDebugAssert (s : Selector) (ev : List Pollfd) (timeout : Option Duration)
    (rs : List Nat) : Prop :=
  ((s.select ev timeout (.ok rs)).events).length = pollReturnCount rs

/-! ### Registration table -/

/-- `Selector::register`: error if the descriptor is present, else push a
fresh entry with the translated mask and zero observed mask. -/
def Selector.register (s : Selector) (fd : Int) (_token : Token) (interests : Interest) :
    Except IOError Unit × Selector :=
  match s.fds.find? (fun pollfd => pollfd.fd == fd) with
  | some _ => (.error .alreadyExists, s)
  | none => (.ok (), ⟨s.fds ++ [⟨fd, interests_to_poll interests, 0⟩]⟩)

/-- `Selector::reregister`: overwrite the first matching entry's requested
mask in place, or error if absent. -/
def Selector.reregister (s : Selector) (fd : Int) (_token : Token) (interests : Interest) :
    Except IOError Unit × Selector :=
  match s.fds.findIdx? (fun pollfd => pollfd.fd == fd) with
  | some idx =>
      (.ok (), ⟨s.fds.set idx
        { s.fds.getD idx default with events := interests_to_poll interests }⟩)
  | none => (.error .notFound, s)

/-- `Selector::deregister`: `Vec::remove` at the first matching position
(order-preserving removal), or error if absent. -/
def Selector.deregister (s : Selector) (fd : Int) : Except IOError Unit × Selector :=
  match s.fds.findIdx? (fun pollfd => pollfd.fd == fd) with
  | some idx => (.ok (), ⟨s.fds.eraseIdx idx⟩)
  | none => (.error .notFound, s)

/-- Selector states reachable from `Selector::new` by the backend's
operations (each taken at any arguments, successful or failing). -/
inductive Reachable : Selector → Prop where
  | new : Reachable Selector.new
  | register (s : Selector) (fd : Int) (tok : Token) (i : Interest) :
      Reachable s → Reachable (s.register fd tok i).2
  | reregister (s : Selector) (fd : Int) (tok : Token) (i : Interest) :
      Reachable s → Reachable (s.reregister fd tok i).2
  | deregister (s : Selector) (fd : Int) :
      Reachable s → Reachable (s.deregister fd).2
  | select (s : Selector) (ev : List Pollfd) (timeout : Option Duration) (os : PollOutcome) :
      Reachable s → Reachable (s.select ev timeout os).selector
  | try_clone (s : Selector) : Reachable s → Reachable s.try_clone

end MioPoll

namespace MioPoll

/-! ### Helper lemmas on bit masks -/

theorem land_reduce_mod (m : Nat) {c : Nat} (hc : c < 1024) :
    m &&& c = m % 1024 &&& c := by
  have h1 : m % 1024 = m &&& 1023 := (Nat.and_pow_two_sub_one_eq_mod m 10).symm
  rw [h1, Nat.and_assoc]
  have h2 : 1023 &&& c = c := by
    rw [Nat.and_comm]
    exact Nat.and_pow_two_sub_one_of_lt_two_pow (n := 10) hc
  rw [h2]

theorem is_error_revents (e : Pollfd) : is_error e = is_error ⟨0, 0, e.revents % 1024⟩ := by
  unfold is_error
  rw [land_reduce_mod e.revents (by decide)]

theorem is_read_closed_revents (e : Pollfd) :
    is_read_closed e = is_read_closed ⟨0, 0, e.revents % 1024⟩ := by
  unfold is_read_closed
  rw [land_reduce_mod e.revents (show POLLHUP < 1024 by decide)]

theorem is_write_closed_revents (e : Pollfd) :
    is_write_closed e = is_write_closed ⟨0, 0, e.revents % 1024⟩ := by
  unfold is_write_closed
  rw [land_reduce_mod e.revents (show POLLHUP < 1024 by decide),
    land_reduce_mod e.revents (show POLLOUT < 1024 by decide),
    land_reduce_mod e.revents (show POLLERR < 1024 by decide)]

theorem write_closed_eq_error_bounded :
    ∀ m, m < 1024 → is_write_closed ⟨0, 0, m⟩ = is_error ⟨0, 0, m⟩ := by decide

theorem read_closed_imp_error_bounded :
    ∀ m, m < 1024 → is_read_closed ⟨0, 0, m⟩ = true → is_error ⟨0, 0, m⟩ = true := by decide

theorem write_closed_only_read_bounded :
    ∀ m, m < 256 → m &&& 195 = m → is_write_closed ⟨0, 0, m⟩ = false := by decide

/-! ### Helper lemmas on the table operations -/

theorem foldl_push_eq_append (l init : List Pollfd) :
    l.foldl (fun acc e => acc ++ [e]) init = init ++ l := by
  induction l generalizing init with
  | nil => simp
  | cons a l ih => simp [List.foldl_cons, ih]

theorem find_fd_none_iff (l : List Pollfd) (f : Int) :
    l.find? (fun p => p.fd == f) = none ↔ ¬ ∃ p ∈ l, p.fd = f := by
  rw [List.find?_eq_none]
  simp

theorem findIdx_fd_none_iff (l : List Pollfd) (f : Int) :
    l.findIdx? (fun p => p.fd == f) = none ↔ ¬ ∃ p ∈ l, p.fd = f := by
  rw [List.findIdx?_eq_none_iff]
  constructor
  · intro h hex
    obtain ⟨p, hp, he⟩ := hex
    have := h p hp
    simp [he] at this
  · intro h p hp
    by_contra hb
    exact h ⟨p, hp, by simpa using hb⟩

theorem findIdx_fd_some (l : List Pollfd) (f : Int) (idx : Nat)
    (h : l.findIdx? (fun p => p.fd == f) = some idx) :
    idx < l.length ∧ (l.getD idx default).fd = f := by
  rw [List.findIdx?_eq_some_iff_getElem] at h
  obtain ⟨hlt, hp, _⟩ := h
  refine ⟨hlt, ?_⟩
  rw [List.getD_eq_getElem?_getD, List.getElem?_eq_getElem hlt]
  simpa using hp

theorem map_fd_set_eq (l : List Pollfd) (i : Nat) (p : Pollfd)
    (h : p.fd = (l.getD i default).fd) :
    (l.set i p).map Pollfd.fd = l.map Pollfd.fd := by
  induction l generalizing i with
  | nil => simp
  | cons a l ih =>
    cases i with
    | zero => simp_all
    | succ n =>
      simp only [List.set_cons_succ, List.map_cons]
      rw [ih n (by simpa using h)]

theorem map_fd_applyRevents (l : List Pollfd) (rs : List Nat) :
    (applyRevents l rs).map Pollfd.fd = (l.take rs.length).map Pollfd.fd := by
  induction l generalizing rs with
  | nil => simp [applyRevents]
  | cons a l ih =>
    cases rs with
    | nil => simp [applyRevents]
    | cons r rs =>
      simp only [applyRevents, List.zipWith_cons_cons, List.map_cons, List.length_cons,
        List.take_succ_cons]
      have := ih rs
      simp only [applyRevents] at this
      rw [this]

end MioPoll

namespace MioPoll

/-! ### Claim theorems -/

/-- C1 counterexample: the claim that a failing `select` leaves the output
batch untouched is false — `select` clears the batch before invoking the
OS primitive, so a nonempty input batch comes back empty when the primitive
fails (here with errno 4, EINTR). -/
theorem select_error_preserves_batch_cex :
    ((Selector.mk [⟨1, 1, 0⟩]).select [⟨7, 0, 0⟩] none (.err 4)).events ≠ [⟨7, 0, 0⟩] := by
  decide

/-- C1 (amended): if the OS primitive fails, `select` propagates the error,
the output batch is left cleared (empty, whatever it held before the call),
and the registration table is unchanged. -/
theorem select_error_clears_batch (s : Selector) (ev : List Pollfd)
    (timeout : Option Duration) (errno : Int) :
    (s.select ev timeout (.err errno)).events = [] ∧
    (s.select ev timeout (.err errno)).result = .error (.osError errno) ∧
    (s.select ev timeout (.err errno)).selector = s :=
  ⟨rfl, rfl, rfl⟩

/-- C2: there is an OS result over a registered table whose raw ready-count
exceeds the number of entries passing the readable/writable/error filter,
so the `debug_assert!(events.len() == _n_events)` does not hold for every
OS result.  Witness: one registered descriptor whose observed mask is
`POLLNVAL` only — `poll` counts it (nonzero `revents`) but no filter
predicate matches it. -/
theorem poll_count_exceeds_filtered :
    pollReturnCount [POLLNVAL] >
      (((Selector.new.register 3 ⟨3⟩ ⟨true, false⟩).2).select [] none
        (.ok [POLLNVAL])).events.length ∧
    ¬ selectDebugAssert (Selector.new.register 3 ⟨3⟩ ⟨true, false⟩).2 [] none [POLLNVAL] := by
  constructor
  · decide
  · unfold selectDebugAssert
    decide

/-- C3 counterexample: the integer passed to the primitive is the
`as libc::c_int` (wrap to signed 32-bit) cast of the millisecond count, so
for a duration of 2147484 seconds the passed value (-2147483296) differs
from the truncated millisecond count (2147484000). -/
theorem timeout_millis_cast_cex :
    timeout_to_c_int (some ⟨2147484, 0⟩) ≠ ((Duration.mk 2147484 0).as_millis : Int) := by
  decide

/-- C3 (amended): `None` becomes the indefinite-block sentinel -1, and
`Some d` becomes the truncated whole-millisecond count of `d` whenever that
count fits in a signed 32-bit integer (below 2^31); larger counts are
wrapped modulo 2^32 into a signed 32-bit value by the cast. -/
theorem timeout_conversion :
    timeout_to_c_int none = -1 ∧
    ∀ d : Duration, d.as_millis < 2 ^ 31 → timeout_to_c_int (some d) = (d.as_millis : Int) := by
  refine ⟨rfl, ?_⟩
  intro d h
  show u128_as_c_int d.as_millis = (d.as_millis : Int)
  unfold u128_as_c_int
  have h32 : d.as_millis < 2 ^ 32 := lt_trans h (by norm_num)
  rw [Nat.mod_eq_of_lt h32, if_pos h]

/-- Witness for C3's amended theorem at a 1.5-second duration. -/
theorem timeout_conversion_witness :
    (Duration.mk 1 500000000).as_millis < 2 ^ 31 ∧
    timeout_to_c_int (some ⟨1, 500000000⟩) = ((Duration.mk 1 500000000).as_millis : Int) :=
  ⟨by decide, timeout_conversion.2 ⟨1, 500000000⟩ (by decide)⟩

/-- C4: on a successful OS return (one observed mask per table entry), the
output batch is exactly the filter of the updated table — the entries whose
observed mask satisfies `is_readable`, `is_writable` or `is_error`, in
table order — independent of the batch's prior contents, and the selector's
table holds the masks the OS wrote. -/
theorem select_ok_filters_table (s : Selector) (ev : List Pollfd)
    (timeout : Option Duration) (rs : List Nat) (_h : rs.length = s.fds.length) :
    (s.select ev timeout (.ok rs)).events =
      (applyRevents s.fds rs).filter
        (fun event => is_readable event || is_writable event || is_error event) ∧
    (s.select ev timeout (.ok rs)).selector = ⟨applyRevents s.fds rs⟩ := by
  constructor
  · show ((applyRevents s.fds rs).filter _).foldl _ [] = _
    rw [foldl_push_eq_append]
    simp
  · rfl

/-- Witness for C4: a two-entry table where only the first entry's observed
mask passes the filter. -/
theorem select_ok_filters_table_witness :
    ([POLLIN, POLLNVAL] : List Nat).length =
      ([⟨3, 195, 0⟩, ⟨4, 195, 0⟩] : List Pollfd).length ∧
    (((Selector.mk [⟨3, 195, 0⟩, ⟨4, 195, 0⟩]).select [⟨9, 9, 9⟩] none
        (.ok [POLLIN, POLLNVAL])).events =
      (applyRevents [⟨3, 195, 0⟩, ⟨4, 195, 0⟩] [POLLIN, POLLNVAL]).filter
        (fun event => is_readable event || is_writable event || is_error event) ∧
      ((Selector.mk [⟨3, 195, 0⟩, ⟨4, 195, 0⟩]).select [⟨9, 9, 9⟩] none
        (.ok [POLLIN, POLLNVAL])).selector =
        ⟨applyRevents [⟨3, 195, 0⟩, ⟨4, 195, 0⟩] [POLLIN, POLLNVAL]⟩) :=
  ⟨by decide,
   select_ok_filters_table ⟨[⟨3, 195, 0⟩, ⟨4, 195, 0⟩]⟩ [⟨9, 9, 9⟩] none
     [POLLIN, POLLNVAL] (by decide)⟩

/-- C5: `register` fails with `AlreadyExists` exactly when an entry for the
descriptor exists and otherwise appends a fresh entry with the translated
requested mask and zero observed mask; `reregister` and `deregister` fail
with `NotFound` exactly when no entry exists; and every failing call
returns the table unchanged. -/
theorem table_ops_error_conditions (s : Selector) (fd : Int) (tok : Token) (i : Interest) :
    ((∃ p ∈ s.fds, p.fd = fd) →
        s.register fd tok i = (.error .alreadyExists, s) ∧
        (s.reregister fd tok i).1 = .ok () ∧
        (s.deregister fd).1 = .ok ()) ∧
    ((¬ ∃ p ∈ s.fds, p.fd = fd) →
        s.register fd tok i = (.ok (), ⟨s.fds ++ [⟨fd, interests_to_poll i, 0⟩]⟩) ∧
        s.reregister fd tok i = (.error .notFound, s) ∧
        s.deregister fd = (.error .notFound, s)) := by
  constructor
  · intro hex
    have h1 : s.fds.find? (fun p => p.fd == fd) ≠ none :=
      fun hn => ((find_fd_none_iff s.fds fd).1 hn) hex
    have h2 : s.fds.findIdx? (fun p => p.fd == fd) ≠ none :=
      fun hn => ((findIdx_fd_none_iff s.fds fd).1 hn) hex
    refine ⟨?_, ?_, ?_⟩
    · unfold Selector.register
      cases he : s.fds.find? (fun p => p.fd == fd) with
      | none => exact absurd he h1
      | some q => rfl
    · unfold Selector.reregister
      cases he : s.fds.findIdx? (fun p => p.fd == fd) with
      | none => exact absurd he h2
      | some idx => rfl
    · unfold Selector.deregister
      cases he : s.fds.findIdx? (fun p => p.fd == fd) with
      | none => exact absurd he h2
      | some idx => rfl
  · intro hex
    have h1 : s.fds.find? (fun p => p.fd == fd) = none := (find_fd_none_iff s.fds fd).2 hex
    have h2 : s.fds.findIdx? (fun p => p.fd == fd) = none := (findIdx_fd_none_iff s.fds fd).2 hex
    refine ⟨?_, ?_, ?_⟩
    · unfold Selector.register
      rw [h1]
    · unfold Selector.reregister
      rw [h2]
    · unfold Selector.deregister
      rw [h2]

/-- Witness for C5: on a one-entry table holding descriptor 7, registering
7 again fails leaving the table unchanged while reregister/deregister
succeed. -/
theorem table_ops_error_conditions_witness :
    (Selector.mk [⟨7, 3, 0⟩]).register 7 ⟨7⟩ ⟨true, false⟩ =
      (.error .alreadyExists, ⟨[⟨7, 3, 0⟩]⟩) ∧
    ((Selector.mk [⟨7, 3, 0⟩]).reregister 7 ⟨7⟩ ⟨true, false⟩).1 = .ok () ∧
    ((Selector.mk [⟨7, 3, 0⟩]).deregister 7).1 = .ok () :=
  (table_ops_error_conditions ⟨[⟨7, 3, 0⟩]⟩ 7 ⟨7⟩ ⟨true, false⟩).1 ⟨⟨7, 3, 0⟩, by decide, rfl⟩

/-- C6: `is_write_closed` is true whenever the hangup bit is set, or the
error bit is set, or both the write-ready and error bits are set; and it is
false on every mask containing only read-class bits (`POLLIN`,
`POLLRDNORM`, `POLLRDBAND`, `POLLPRI`). -/
theorem write_closed_conditions (e : Pollfd) :
    ((e.revents &&& POLLHUP ≠ 0 ∨ e.revents &&& POLLERR ≠ 0 ∨
        (e.revents &&& POLLOUT ≠ 0 ∧ e.revents &&& POLLERR ≠ 0)) →
      is_write_closed e = true) ∧
    (e.revents &&& (POLLIN ||| POLLRDNORM ||| POLLRDBAND ||| POLLPRI) = e.revents →
      is_write_closed e = false) := by
  constructor
  · intro h
    unfold is_write_closed
    simp only [Bool.or_eq_true, Bool.and_eq_true, bne_iff_ne, ne_eq]
    tauto
  · intro h
    have h195 : (POLLIN ||| POLLRDNORM ||| POLLRDBAND ||| POLLPRI) = 195 := by decide
    rw [h195] at h
    have hle : e.revents ≤ 195 := by
      calc e.revents = e.revents &&& 195 := h.symm
        _ ≤ 195 := Nat.and_le_right
    have hrw : is_write_closed e = is_write_closed ⟨0, 0, e.revents⟩ := rfl
    rw [hrw]
    exact write_closed_only_read_bounded e.revents (by omega) h

/-- Witness for C6 at a hangup-only mask and a read-ready-only mask. -/
theorem write_closed_conditions_witness :
    is_write_closed ⟨0, 0, POLLHUP⟩ = true ∧ is_write_closed ⟨0, 0, POLLIN⟩ = false :=
  ⟨(write_closed_conditions ⟨0, 0, POLLHUP⟩).1 (Or.inl (by decide)),
   (write_closed_conditions ⟨0, 0, POLLIN⟩).2 (by decide)⟩

/-- C7: the readable-only interest mask has no write bits, the
writable-only interest mask has no read bits, and the readable+writable
mask is the bitwise union of the two single-interest masks. -/
theorem interests_to_poll_bit_structure :
    interests_to_poll ⟨true, false⟩ &&& (POLLOUT ||| POLLWRNORM ||| POLLWRBAND) = 0 ∧
    interests_to_poll ⟨false, true⟩ &&&
      (POLLIN ||| POLLRDNORM ||| POLLRDBAND ||| POLLPRI) = 0 ∧
    interests_to_poll ⟨true, true⟩ =
      interests_to_poll ⟨true, false⟩ ||| interests_to_poll ⟨false, true⟩ := by
  decide

/-- C8: every selector state reachable from the empty selector by register,
reregister, deregister, select and clone calls has at most one table entry
per descriptor value. -/
theorem reachable_table_nodup (s : Selector) (h : Reachable s) :
    (s.fds.map Pollfd.fd).Nodup := by
  induction h with
  | new => simp [Selector.new]
  | register s fd tok i _ ih =>
    unfold Selector.register
    cases he : s.fds.find? (fun p => p.fd == fd) with
    | some q => exact ih
    | none =>
      have hnotin : fd ∉ s.fds.map Pollfd.fd := by
        rw [List.find?_eq_none] at he
        intro hmem
        obtain ⟨p, hp, hfd⟩ := List.mem_map.1 hmem
        have := he p hp
        simp [hfd] at this
      simp only [List.map_append, List.map_cons, List.map_nil]
      rw [List.nodup_append]
      refine ⟨ih, by simp, by simpa using hnotin⟩
  | reregister s fd tok i _ ih =>
    unfold Selector.reregister
    cases he : s.fds.findIdx? (fun p => p.fd == fd) with
    | none => exact ih
    | some idx =>
      show ((s.fds.set idx
        { s.fds.getD idx default with events := interests_to_poll i }).map Pollfd.fd).Nodup
      rw [map_fd_set_eq s.fds idx
        { s.fds.getD idx default with events := interests_to_poll i } rfl]
      exact ih
  | deregister s fd _ ih =>
    unfold Selector.deregister
    cases he : s.fds.findIdx? (fun p => p.fd == fd) with
    | none => exact ih
    | some idx =>
      show ((s.fds.eraseIdx idx).map Pollfd.fd).Nodup
      exact ih.sublist ((List.eraseIdx_sublist s.fds idx).map Pollfd.fd)
  | select s ev timeout os _ ih =>
    cases os with
    | err errno => exact ih
    | ok rs =>
      show ((applyRevents s.fds rs).map Pollfd.fd).Nodup
      rw [map_fd_applyRevents]
      exact ih.sublist ((List.take_sublist _ _).map Pollfd.fd)
  | try_clone s _ ih => exact ih

/-- Witness for C8: the state reached by registering descriptor 5 and then
selecting has pairwise-distinct descriptors. -/
theorem reachable_table_nodup_witness :
    ((((Selector.new.register 5 ⟨5⟩ ⟨true, false⟩).2).select [] none
        (.ok [POLLIN])).selector.fds.map Pollfd.fd).Nodup :=
  reachable_table_nodup _
    (Reachable.select _ [] none (.ok [POLLIN])
      (Reachable.register Selector.new 5 ⟨5⟩ ⟨true, false⟩ Reachable.new))

/-- C9: when the table holds an entry for `fd` (first match at `idx`), a
successful `reregister` replaces only that entry's requested mask — its
descriptor and observed mask, and every other entry, are unchanged — and a
successful `deregister` removes exactly that entry, the remaining entries
being the untouched prefix and suffix in order. -/
theorem reregister_deregister_frame (s : Selector) (fd : Int) (tok : Token) (i : Interest)
    (idx : Nat) (h : s.fds.findIdx? (fun p => p.fd == fd) = some idx) :
    (s.reregister fd tok i).1 = .ok () ∧
    (s.reregister fd tok i).2.fds =
      s.fds.set idx { s.fds.getD idx default with events := interests_to_poll i } ∧
    (s.fds.getD idx default).fd = fd ∧
    ((s.reregister fd tok i).2.fds.getD idx default).fd = (s.fds.getD idx default).fd ∧
    ((s.reregister fd tok i).2.fds.getD idx default).revents =
      (s.fds.getD idx default).revents ∧
    ((s.reregister fd tok i).2.fds.getD idx default).events = interests_to_poll i ∧
    (∀ j, j ≠ idx → (s.reregister fd tok i).2.fds.getD j default = s.fds.getD j default) ∧
    (s.deregister fd).1 = .ok () ∧
    (s.deregister fd).2.fds = s.fds.take idx ++ s.fds.drop (idx + 1) := by
  obtain ⟨hlt, hfd⟩ := findIdx_fd_some s.fds fd idx h
  have hre : s.reregister fd tok i = (.ok (), ⟨s.fds.set idx
      { s.fds.getD idx default with events := interests_to_poll i }⟩) := by
    unfold Selector.reregister
    rw [h]
  have hde : s.deregister fd = (.ok (), ⟨s.fds.eraseIdx idx⟩) := by
    unfold Selector.deregister
    rw [h]
  have hget : ((s.fds.set idx
      { s.fds.getD idx default with events := interests_to_poll i }).getD idx default) =
      { s.fds.getD idx default with events := interests_to_poll i } := by
    rw [List.getD_eq_getElem?_getD, List.getElem?_set_self' ]
    rw [List.getElem?_eq_getElem hlt]
    rfl
  refine ⟨by rw [hre], by rw [hre], hfd, ?_, ?_, ?_, ?_, by rw [hde], ?_⟩
  · rw [hre]
    show ((s.fds.set idx _).getD idx default).fd = _
    rw [hget]
  · rw [hre]
    show ((s.fds.set idx _).getD idx default).revents = _
    rw [hget]
  · rw [hre]
    show ((s.fds.set idx _).getD idx default).events = _
    rw [hget]
  · intro j hj
    rw [hre]
    show ((s.fds.set idx _).getD j default) = _
    rw [List.getD_eq_getElem?_getD, List.getElem?_set_ne (Ne.symm hj),
      ← List.getD_eq_getElem?_getD]
  · rw [hde]
    show s.fds.eraseIdx idx = _
    exact List.eraseIdx_eq_take_drop_succ s.fds idx

/-- Witness for C9 on a two-entry table, acting on the second entry. -/
theorem reregister_deregister_frame_witness :
    ((Selector.mk [⟨5, 1, 7⟩, ⟨9, 2, 3⟩]).reregister 9 ⟨0⟩ ⟨true, false⟩).1 = .ok () ∧
    ((Selector.mk [⟨5, 1, 7⟩, ⟨9, 2, 3⟩]).deregister 9).2.fds =
      ([⟨5, 1, 7⟩, ⟨9, 2, 3⟩] : List Pollfd).take 1 ++
        ([⟨5, 1, 7⟩, ⟨9, 2, 3⟩] : List Pollfd).drop 2 :=
  ⟨(reregister_deregister_frame ⟨[⟨5, 1, 7⟩, ⟨9, 2, 3⟩]⟩ 9 ⟨0⟩ ⟨true, false⟩ 1
      (by decide)).1,
   (reregister_deregister_frame ⟨[⟨5, 1, 7⟩, ⟨9, 2, 3⟩]⟩ 9 ⟨0⟩ ⟨true, false⟩ 1
      (by decide)).2.2.2.2.2.2.2.2⟩

/-- C10: on every observed mask, `is_write_closed` agrees exactly with
`is_error` (the hangup-or-error test), and `is_read_closed` implies
`is_error`. -/
theorem write_closed_eq_error (e : Pollfd) :
    is_write_closed e = is_error e ∧ (is_read_closed e = true → is_error e = true) := by
  refine ⟨?_, ?_⟩
  · rw [is_write_closed_revents, is_error_revents]
    exact write_closed_eq_error_bounded _ (Nat.mod_lt _ (by decide))
  · intro h
    rw [is_read_closed_revents] at h
    rw [is_error_revents]
    exact read_closed_imp_error_bounded _ (Nat.mod_lt _ (by decide)) h

/-- Witness for C10 at a hangup-only mask. -/
theorem write_closed_eq_error_witness :
    is_error ⟨0, 0, POLLHUP⟩ = true :=
  (write_closed_eq_error ⟨0, 0, POLLHUP⟩).2 (by decide)

end MioPoll
